import Mathlib

/-!
Shallow embedding of the STRATUM-0 adversarial integrity monitor tick engine
(src/App.tsx, second snapshot, together with src/types.ts).  JavaScript
numbers are modelled as rationals; the random draws of the load generator are
passed in as explicit parameters; wall-clock reads of Date.now() are passed in
as an explicit `now` argument.
-/

namespace Stratum0

/-- Task lifecycle states, from the `status` union in src/types.ts. -/
inductive TaskStatus where
  | PENDING
  | EXECUTING
  | COMPLETED
  | REFUSED
  | FAILED
deriving DecidableEq, Repr

/-- Execution node labels, from the `assignedNode` union in src/types.ts. -/
inductive NodeType where
  | PRIMARY_PRO
  | EDGE_FLASH
deriving DecidableEq, Repr

/-- The phase enumeration of src/types.ts, in declaration order (the order
`Object.values(SimulationPhase)` yields in the auto-advance logic). -/
inductive SimulationPhase where
  | BASE
  | PHASE_1
  | PHASE_2
  | PHASE_3
  | PHASE_4
  | PHASE_5
deriving DecidableEq, Repr

/-- A task in the live queue (src/types.ts `Task`).  `assignedNode` is
optional in the TypeScript type but every task constructed by the engine
carries one, so it is total here. -/
structure Task where
  id : String
  complexity : ℚ
  startTime : ℚ
  status : TaskStatus
  assignedNode : NodeType
deriving DecidableEq, Repr

/-- The configuration fields of src/types.ts `SimulationConfig` that the tick
engine reads (loadShape and telemetryEnabled are presentation-only and
activeTraceId is display-only, so they are omitted). -/
structure SimulationConfig where
  cpuBudget : ℚ
  memoryCap : ℚ
  latencyHardCeiling : ℚ
  concurrencyLimit : ℕ
  retriesEnabled : Bool
  isAccelerated : Bool
  isAutoAdvancing : Bool
  phaseTickCounter : ℕ
  isRecording : Bool
  isReplaying : Bool
  isAutopilot : Bool
deriving DecidableEq, Repr

/-- INITIAL_CONFIG from src/App.tsx (the engine-relevant fields). -/
def INITIAL_CONFIG : SimulationConfig :=
  { cpuBudget := 100
    memoryCap := 4096
    latencyHardCeiling := 500
    concurrencyLimit := 20
    retriesEnabled := true
    isAccelerated := false
    isAutoAdvancing := true
    phaseTickCounter := 0
    isRecording := false
    isReplaying := false
    isAutopilot := false }

/-- An incoming arrival before routing: the `{ id, complexity }` pairs the
load generator produces. -/
structure Arrival where
  id : String
  complexity : ℚ
deriving DecidableEq, Repr

/-- One recorded tick of a trace (src/types.ts `TickTrace`). -/
structure TickTrace where
  tick : ℕ
  incomingTasks : List Arrival
deriving DecidableEq, Repr

/-- A frozen recording session (src/types.ts `TraceRecord`). -/
structure TraceRecord where
  id : String
  timestamp : ℚ
  phase : SimulationPhase
  integrityScore : ℚ
  data : List TickTrace
deriving DecidableEq, Repr

/-- Per-tick metrics snapshot (src/types.ts `SystemMetrics`); the counters
are naturals, the derived quantities rationals. -/
structure SystemMetrics where
  throughput : ℕ
  latency : ℚ
  memoryUsage : ℚ
  cpuLoad : ℚ
  refusalCount : ℕ
  errorCount : ℕ
  timestamp : ℕ
  routingOverhead : ℚ
deriving DecidableEq, Repr

/-! ### Load generator (App.tsx lines 510-523) -/

/-- Task id `T-${tick}-${i}` built by the load generator. -/
def arrivalId (tick i : ℕ) : String :=
  "T-" ++ Nat.repr tick ++ "-" ++ Nat.repr i

/-- The stochastic base count: `Math.floor(Math.random()*5)` normally,
`Math.floor(Math.random()*10) + 5` when accelerated.  `countDraw` models the
first floored draw (in [0,5)), `accelDraw` the second (in [0,10)). -/
def baseArrivalCount (isAccelerated : Bool) (countDraw accelDraw : ℕ) : ℕ :=
  if isAccelerated then accelDraw + 5 else countDraw

/-- Arrival count after the phase-dependent bonuses: +25 in PHASE_3 on ticks
divisible by 5, else +8 in PHASE_5. -/
def arrivalCount (phase : SimulationPhase) (isAccelerated : Bool) (tick : ℕ)
    (countDraw accelDraw : ℕ) : ℕ :=
  let count := baseArrivalCount isAccelerated countDraw accelDraw
  if phase = SimulationPhase.PHASE_3 then
    if tick % 5 = 0 then count + 25 else count
  else if phase = SimulationPhase.PHASE_5 then
    count + 8
  else count

/-- Complexity of one arrival: `(Math.random() * 80) + 20`, with `r` the raw
draw in [0,1). -/
def complexityOf (r : ℚ) : ℚ :=
  r * 80 + 20

/-- The synthetic arrival list of one tick: ids `T-tick-i` and complexities
from the per-index draws. -/
def generateArrivals (phase : SimulationPhase) (isAccelerated : Bool) (tick : ℕ)
    (countDraw accelDraw : ℕ) (complexityDraw : ℕ → ℚ) : List Arrival :=
  (List.range (arrivalCount phase isAccelerated tick countDraw accelDraw)).map
    (fun i => { id := arrivalId tick i, complexity := complexityOf (complexityDraw i) })

/-! ### Trace replay lookup and the per-tick arrival source
(App.tsx lines 501-542; the autopilot pathological-input injection is an
asynchronous external-collaborator call and is outside this model) -/

/-- `activeTraceDataRef.current.data.find(d => d.tick === tickRef.current)`. -/
def replayLookup (data : List TickTrace) (tick : ℕ) : Option TickTrace :=
  data.find? (fun d => d.tick == tick)

/-- Result of the arrival-source portion of a tick: the incoming arrivals,
the (possibly auto-cleared) replay flag, and the (possibly extended)
recording buffer. -/
structure ArrivalSourceResult where
  incoming : List Arrival
  isReplaying : Bool
  traceBuffer : List TickTrace
deriving DecidableEq, Repr

/-- The arrival source of one tick (App.tsx lines 503-541).  In replay mode
with an active trace, a recorded tick is returned verbatim; when the tick
index exceeds the recorded length the replay flag is cleared and the incoming
list stays empty.  Otherwise arrivals are generated synthetically and, when
recording, appended to the trace buffer. -/
def arrivalSource (cfg : SimulationConfig) (activeTrace : Option TraceRecord)
    (phase : SimulationPhase) (tick : ℕ) (buffer : List TickTrace)
    (countDraw accelDraw : ℕ) (complexityDraw : ℕ → ℚ) : ArrivalSourceResult :=
  match cfg.isReplaying, activeTrace with
  | true, some tr =>
    match replayLookup tr.data tick with
    | some step =>
        { incoming := step.incomingTasks, isReplaying := true, traceBuffer := buffer }
    | none =>
        if tr.data.length < tick then
          { incoming := [], isReplaying := false, traceBuffer := buffer }
        else
          { incoming := [], isReplaying := true, traceBuffer := buffer }
  | _, _ =>
    let incoming := generateArrivals phase cfg.isAccelerated tick countDraw accelDraw complexityDraw
    { incoming := incoming
      isReplaying := cfg.isReplaying
      traceBuffer := if cfg.isRecording then buffer ++ [⟨tick, incoming⟩] else buffer }

/-- The recording buffer after `n` ticks of a session started by
startRecording (empty buffer, tick counter reset to 0); each tick `k`
(1-based) feeds its draws to the arrival source. -/
def recordSession (cfg : SimulationConfig) (phase : SimulationPhase)
    (countDraws accelDraws : ℕ → ℕ) (complexityDraws : ℕ → ℕ → ℚ) : ℕ → List TickTrace
  | 0 => []
  | n + 1 =>
    (arrivalSource cfg none phase (n + 1)
      (recordSession cfg phase countDraws accelDraws complexityDraws n)
      (countDraws (n + 1)) (accelDraws (n + 1)) (complexityDraws (n + 1))).traceBuffer

/-! ### Router (App.tsx lines 544-552) -/

/-- Route one arrival: complexity strictly above 70 goes to the primary node,
otherwise to the edge node; the task enters the queue PENDING with startTime
stamped at arrival. -/
def routeArrival (now : ℚ) (a : Arrival) : Task :=
  { id := a.id
    complexity := a.complexity
    startTime := now
    status := TaskStatus.PENDING
    assignedNode := if 70 < a.complexity then NodeType.PRIMARY_PRO else NodeType.EDGE_FLASH }

def routeArrivals (now : ℚ) (incoming : List Arrival) : List Task :=
  incoming.map (routeArrival now)

/-- `const routingCost = incoming.length * 2.5`. -/
def routingCost (incoming : List Arrival) : ℚ :=
  (incoming.length : ℚ) * (5 / 2)

/-! ### Admission control (App.tsx lines 554-569) -/

def executingCount (queue : List Task) : ℕ :=
  (queue.filter (fun t => decide (t.status = TaskStatus.EXECUTING))).length

def pendingCount (queue : List Task) : ℕ :=
  (queue.filter (fun t => decide (t.status = TaskStatus.PENDING))).length

def refusedCount (queue : List Task) : ℕ :=
  (queue.filter (fun t => decide (t.status = TaskStatus.REFUSED))).length

/-- One admission decision over a task, against the fixed occupancy snapshot
`activeCount` (the length of the activeTasks array filtered before the loop,
which the in-place status writes never update).  Returns the updated task and
1 when a refusal was counted. -/
def admitTask (activeCount limit : ℕ) (retriesEnabled : Bool) (t : Task) : Task × ℕ :=
  if t.status = TaskStatus.PENDING then
    if limit ≤ activeCount then
      if retriesEnabled then (t, 0)
      else ({ t with status := TaskStatus.REFUSED }, 1)
    else ({ t with status := TaskStatus.EXECUTING }, 0)
  else (t, 0)

/-- The admission pass: every PENDING task is decided against the same
snapshot of the EXECUTING count taken before the pass.  Returns the updated
queue and the refusal count contributed by admission. -/
def admissionPass (cfg : SimulationConfig) (queue : List Task) : List Task × ℕ :=
  let activeCount := executingCount queue
  (queue.map (fun t => (admitTask activeCount cfg.concurrencyLimit cfg.retriesEnabled t).1),
   (queue.map (fun t => (admitTask activeCount cfg.concurrencyLimit cfg.retriesEnabled t).2)).sum)

/-! ### Execution model (App.tsx lines 571-587) -/

/-- `const overheadMultiplier = task.assignedNode === PRIMARY_PRO ? 1.2 : 0.8`,
with the JavaScript literals modelled as exact rationals. -/
def overheadMultiplier (node : NodeType) : ℚ :=
  if node = NodeType.PRIMARY_PRO then 12 / 10 else 8 / 10

/-- `task.complexity * overheadMultiplier * (100 / config.cpuBudget)`. -/
def serviceThreshold (cfg : SimulationConfig) (t : Task) : ℚ :=
  t.complexity * overheadMultiplier t.assignedNode * (100 / cfg.cpuBudget)

/-- One execution-pass evaluation of a task.  Returns the updated task, the
errorCount increment and the refusalCount increment. -/
def execTask (phase : SimulationPhase) (cfg : SimulationConfig) (now : ℚ) (t : Task) :
    Task × ℕ × ℕ :=
  if t.status = TaskStatus.EXECUTING then
    let duration := now - t.startTime
    if cfg.latencyHardCeiling < duration then
      if phase = SimulationPhase.PHASE_2 ∨ phase = SimulationPhase.PHASE_5 then
        ({ t with status := TaskStatus.REFUSED }, 0, 1)
      else
        ({ t with status := TaskStatus.FAILED }, 1, 0)
    else if serviceThreshold cfg t < duration then
      ({ t with status := TaskStatus.COMPLETED }, 0, 0)
    else
      (t, 0, 0)
  else (t, 0, 0)

/-- The execution pass over the whole queue: updated queue, errorCount,
refusalCount contributed by execution. -/
def executionPass (phase : SimulationPhase) (cfg : SimulationConfig) (now : ℚ)
    (queue : List Task) : List Task × ℕ × ℕ :=
  (queue.map (fun t => (execTask phase cfg now t).1),
   (queue.map (fun t => (execTask phase cfg now t).2.1)).sum,
   (queue.map (fun t => (execTask phase cfg now t).2.2)).sum)

/-! ### Terminal-task removal (App.tsx lines 589-593) -/

def isTerminal (t : Task) : Bool :=
  decide (t.status = TaskStatus.COMPLETED) || decide (t.status = TaskStatus.REFUSED) ||
    decide (t.status = TaskStatus.FAILED)

def finishedIds (queue : List Task) : List String :=
  (queue.filter isTerminal).map Task.id

def removeFinished (queue : List Task) : List Task :=
  queue.filter (fun t => ! (finishedIds queue).contains t.id)

/-! ### Metrics history and integrity score (App.tsx lines 606 and 637) -/

/-- `setHistory(prev => [...prev.slice(-100), currentMetrics])`: keep the
last 100 entries of the previous history, then append. -/
def pushMetrics (history : List SystemMetrics) (m : SystemMetrics) : List SystemMetrics :=
  history.drop (history.length - 100) ++ [m]

def totalErrorCount (history : List SystemMetrics) : ℕ :=
  (history.map SystemMetrics.errorCount).sum

/-- `Math.max(0, 100 - (history.reduce((acc, curr) => acc + curr.errorCount, 0) / 10))`. -/
def integrityScore (history : List SystemMetrics) : ℚ :=
  max 0 (100 - (totalErrorCount history : ℚ) / 10)

/-! ### Auto-advance (App.tsx lines 614-628) -/

def TICKS_PER_PHASE : ℕ := 30

/-- `Object.values(SimulationPhase)` in declaration order. -/
def phasesList : List SimulationPhase :=
  [SimulationPhase.BASE, SimulationPhase.PHASE_1, SimulationPhase.PHASE_2,
   SimulationPhase.PHASE_3, SimulationPhase.PHASE_4, SimulationPhase.PHASE_5]

def phaseIdx (p : SimulationPhase) : ℕ :=
  phasesList.indexOf p

/-- The auto-advance block at the end of a tick: gated on
`config.isAutoAdvancing && !config.isAutopilot`; increments the per-phase
counter, and at the threshold either advances one phase (non-terminal) or
clears the auto-advance flag (terminal), resetting the counter either way. -/
def autoAdvanceStep (cfg : SimulationConfig) (phase : SimulationPhase) :
    SimulationConfig × SimulationPhase :=
  if cfg.isAutoAdvancing ∧ ¬ cfg.isAutopilot then
    let nextTickCount := cfg.phaseTickCounter + 1
    if TICKS_PER_PHASE ≤ nextTickCount then
      let currentIndex := phaseIdx phase
      if currentIndex < phasesList.length - 1 then
        ({ cfg with phaseTickCounter := 0 }, phasesList.getD (currentIndex + 1) phase)
      else
        ({ cfg with isAutoAdvancing := false, phaseTickCounter := 0 }, phase)
    else
      ({ cfg with phaseTickCounter := nextTickCount }, phase)
  else (cfg, phase)

/-! ### Helper lemmas -/

lemma executingCount_nil : executingCount [] = 0 := rfl

lemma pendingCount_nil : pendingCount [] = 0 := rfl

lemma executingCount_cons (t : Task) (q : List Task) :
    executingCount (t :: q) =
      (if t.status = TaskStatus.EXECUTING then 1 else 0) + executingCount q := by
  by_cases h : t.status = TaskStatus.EXECUTING <;>
    simp [executingCount, List.filter_cons, h, Nat.add_comm]

lemma pendingCount_cons (t : Task) (q : List Task) :
    pendingCount (t :: q) =
      (if t.status = TaskStatus.PENDING then 1 else 0) + pendingCount q := by
  by_cases h : t.status = TaskStatus.PENDING <;>
    simp [pendingCount, List.filter_cons, h, Nat.add_comm]

/-- The admission map against a fixed snapshot `a` of the EXECUTING count:
when the snapshot is below the limit every PENDING task is promoted, when it
is at or above the limit none is. -/
lemma executingCount_admit_map (a limit : ℕ) (r : Bool) (queue : List Task) :
    executingCount (queue.map (fun t => (admitTask a limit r t).1)) =
      executingCount queue + (if limit ≤ a then 0 else pendingCount queue) := by
  induction queue with
  | nil => simp [executingCount_nil, pendingCount_nil]
  | cons t q ih =>
    simp only [List.map_cons, executingCount_cons, pendingCount_cons]
    rw [ih]
    rcases ht : t.status <;> cases r <;> by_cases hle : limit ≤ a <;>
      simp [admitTask, ht, hle] <;> omega

/-! ### C1 / C2: admission control -/

/-- Concurrency limit 1 with retries disabled, all other fields at their
initial values (Scenario A of the spec). -/
def limitOneCfg : SimulationConfig :=
  { INITIAL_CONFIG with concurrencyLimit := 1, retriesEnabled := false }

def scenarioArrivalA : Arrival := { id := "T-1-0", complexity := 50 }

def scenarioArrivalB : Arrival := { id := "T-1-1", complexity := 50 }

/-- C1 counterexample: with concurrencyLimit 1, no task EXECUTING before the
tick and two PENDING arrivals, the admission pass leaves the EXECUTING count
strictly above the concurrency limit — the limit is not a hard occupancy
ceiling. -/
theorem c1_counterexample :
    limitOneCfg.concurrencyLimit <
      executingCount
        (admissionPass limitOneCfg (routeArrivals 0 [scenarioArrivalA, scenarioArrivalB])).1 := by
  decide

/-- C1 (amended): the admission pass decides every PENDING task against the
fixed snapshot of the EXECUTING count taken before the promotions of this
tick.  When the snapshot is at or above concurrencyLimit no pending task is
admitted; when it is below the limit every pending task is admitted at once,
so the EXECUTING count after the pass equals snapshot + pending and can
exceed concurrencyLimit. -/
theorem c1_admission_snapshot (cfg : SimulationConfig) (queue : List Task) :
    executingCount (admissionPass cfg queue).1 =
      if cfg.concurrencyLimit ≤ executingCount queue then executingCount queue
      else executingCount queue + pendingCount queue := by
  unfold admissionPass
  simp only
  rw [executingCount_admit_map]
  split_ifs <;> omega

/-- C2 counterexample: in Scenario A (concurrencyLimit 1, retriesEnabled
false, no prior EXECUTING task, two complexity-50 arrivals in the same tick)
it is not the case that exactly one task is EXECUTING and the other REFUSED
after the admission pass. -/
theorem c2_counterexample :
    ¬ (executingCount
          (admissionPass limitOneCfg (routeArrivals 0 [scenarioArrivalA, scenarioArrivalB])).1 = 1 ∧
        refusedCount
          (admissionPass limitOneCfg (routeArrivals 0 [scenarioArrivalA, scenarioArrivalB])).1 = 1) := by
  decide

/-- C2 (amended): with concurrencyLimit 1, retriesEnabled false and no task
EXECUTING before the tick, two tasks that are PENDING in the same tick are
BOTH promoted to EXECUTING by the admission pass (each decision sees the
snapshot occupancy 0 < 1), and no refusal is counted. -/
theorem c2_both_admitted (t1 t2 : Task)
    (h1 : t1.status = TaskStatus.PENDING) (h2 : t2.status = TaskStatus.PENDING) :
    (admissionPass limitOneCfg [t1, t2]).1 =
      [{ t1 with status := TaskStatus.EXECUTING }, { t2 with status := TaskStatus.EXECUTING }] ∧
    (admissionPass limitOneCfg [t1, t2]).2 = 0 := by
  constructor <;>
    simp [admissionPass, executingCount, admitTask, h1, h2, List.filter_cons,
      limitOneCfg, INITIAL_CONFIG]

/-- C2 witness: the amended statement at the two routed complexity-50
arrivals of Scenario A. -/
theorem c2_both_admitted_witness :
    (admissionPass limitOneCfg
        [routeArrival 0 scenarioArrivalA, routeArrival 0 scenarioArrivalB]).1 =
      [{ routeArrival 0 scenarioArrivalA with status := TaskStatus.EXECUTING },
       { routeArrival 0 scenarioArrivalB with status := TaskStatus.EXECUTING }] ∧
    (admissionPass limitOneCfg
        [routeArrival 0 scenarioArrivalA, routeArrival 0 scenarioArrivalB]).2 = 0 :=
  c2_both_admitted (routeArrival 0 scenarioArrivalA) (routeArrival 0 scenarioArrivalB) rfl rfl

/-! ### C3 / C4: execution model -/

/-- C3: a task that is EXECUTING when the execution pass evaluates it and
whose duration exceeds latencyHardCeiling is REFUSED (with a refusalCount
increment) in CONSTRAINT_COMPRESSION or ZERO_ERROR_AUDIT, and FAILED (with an
errorCount increment) in every other phase. -/
theorem c3_latency_ceiling (phase : SimulationPhase) (cfg : SimulationConfig) (now : ℚ)
    (t : Task) (hexec : t.status = TaskStatus.EXECUTING)
    (hdur : cfg.latencyHardCeiling < now - t.startTime) :
    ((phase = SimulationPhase.PHASE_2 ∨ phase = SimulationPhase.PHASE_5) →
        execTask phase cfg now t = ({ t with status := TaskStatus.REFUSED }, 0, 1)) ∧
    (¬ (phase = SimulationPhase.PHASE_2 ∨ phase = SimulationPhase.PHASE_5) →
        execTask phase cfg now t = ({ t with status := TaskStatus.FAILED }, 1, 0)) := by
  constructor <;> intro hp <;> simp [execTask, hexec, hdur, hp]

/-- The configuration the ZERO_ERROR_AUDIT phase entry applies:
cpuBudget 30, latencyHardCeiling 80, concurrencyLimit 10. -/
def zeroErrorAuditCfg : SimulationConfig :=
  { INITIAL_CONFIG with cpuBudget := 30, latencyHardCeiling := 80, concurrencyLimit := 10 }

/-- A complexity-50 task on the edge node, executing since instant 0. -/
def scenarioTaskB : Task :=
  { id := "T-1-0", complexity := 50, startTime := 0, status := TaskStatus.EXECUTING,
    assignedNode := NodeType.EDGE_FLASH }

/-- C3 witness: Scenario B (ZERO_ERROR_AUDIT, ceiling 80, duration 81 gives
REFUSED with a refusal increment) and Scenario C (BASE, ceiling 500, duration
501 gives FAILED with an error increment). -/
theorem c3_witness :
    execTask SimulationPhase.PHASE_5 zeroErrorAuditCfg 81 scenarioTaskB =
      ({ scenarioTaskB with status := TaskStatus.REFUSED }, 0, 1) ∧
    execTask SimulationPhase.BASE INITIAL_CONFIG 501 scenarioTaskB =
      ({ scenarioTaskB with status := TaskStatus.FAILED }, 1, 0) :=
  ⟨(c3_latency_ceiling SimulationPhase.PHASE_5 zeroErrorAuditCfg 81 scenarioTaskB rfl
      (by norm_num [zeroErrorAuditCfg, INITIAL_CONFIG, scenarioTaskB])).1 (Or.inr rfl),
   (c3_latency_ceiling SimulationPhase.BASE INITIAL_CONFIG 501 scenarioTaskB rfl
      (by norm_num [INITIAL_CONFIG, scenarioTaskB])).2 (by decide)⟩

/-- C4: a task that is EXECUTING with duration not above latencyHardCeiling
is marked COMPLETED exactly when duration exceeds
complexity × overheadMultiplier × (100 / cpuBudget), with multiplier 1.2 for
the primary node and 0.8 for the edge node, and is left unchanged (still
EXECUTING, no counter increments) otherwise. -/
theorem c4_completion (phase : SimulationPhase) (cfg : SimulationConfig) (now : ℚ) (t : Task)
    (hexec : t.status = TaskStatus.EXECUTING)
    (hdur : ¬ cfg.latencyHardCeiling < now - t.startTime) :
    (execTask phase cfg now t = ({ t with status := TaskStatus.COMPLETED }, 0, 0) ↔
        t.complexity * overheadMultiplier t.assignedNode * (100 / cfg.cpuBudget) <
          now - t.startTime) ∧
    (¬ t.complexity * overheadMultiplier t.assignedNode * (100 / cfg.cpuBudget) <
          now - t.startTime →
        execTask phase cfg now t = (t, 0, 0)) ∧
    overheadMultiplier NodeType.PRIMARY_PRO = 12 / 10 ∧
    overheadMultiplier NodeType.EDGE_FLASH = 8 / 10 := by
  refine ⟨⟨?_, ?_⟩, ?_, by simp [overheadMultiplier], by simp [overheadMultiplier]⟩
  · intro h
    by_contra hlt
    have h0 : execTask phase cfg now t = (t, 0, 0) := by
      simp [execTask, hexec, hdur, serviceThreshold, hlt]
    rw [h0] at h
    have h1 := congrArg (fun p => p.1.status) h
    simp [hexec] at h1
  · intro h
    simp [execTask, hexec, hdur, serviceThreshold, h]
  · intro h
    simp [execTask, hexec, hdur, serviceThreshold, h]

/-- C4 witness: Scenario D — cpuBudget 100, complexity 50, edge node, so the
service threshold is 40, and at duration 41 (below the 500 ceiling) the task
COMPLETEs. -/
theorem c4_witness :
    execTask SimulationPhase.BASE INITIAL_CONFIG 41 scenarioTaskB =
      ({ scenarioTaskB with status := TaskStatus.COMPLETED }, 0, 0) :=
  (c4_completion SimulationPhase.BASE INITIAL_CONFIG 41 scenarioTaskB rfl
      (by norm_num [INITIAL_CONFIG, scenarioTaskB])).1.mpr
    (by
      have h : overheadMultiplier NodeType.EDGE_FLASH = 8 / 10 := by
        simp [overheadMultiplier]
      norm_num [INITIAL_CONFIG, scenarioTaskB, h])

/-! ### C5: load generator -/

/-- Decimal representations of naturals below 40 are pairwise distinct. -/
lemma natRepr_inj_lt40 : ∀ i < 40, ∀ j < 40, Nat.repr i = Nat.repr j → i = j := by
  decide

/-- For a fixed tick, the generated ids are injective in the within-tick
index (for the indices the generator can produce). -/
lemma arrivalId_inj_lt40 (tick : ℕ) :
    ∀ i < 40, ∀ j < 40, arrivalId tick i = arrivalId tick j → i = j := by
  intro i hi j hj h
  have hd := congrArg String.data h
  simp only [arrivalId, String.data_append] at hd
  have h1 := List.append_cancel_left hd
  exact natRepr_inj_lt40 i hi j hj (String.ext h1)

/-- Under the ranges of the two floored draws, a tick never produces 40 or
more arrivals (at most 14 base + 25 bonus). -/
lemma baseArrivalCount_true (cd ad : ℕ) : baseArrivalCount true cd ad = ad + 5 := rfl

lemma baseArrivalCount_false (cd ad : ℕ) : baseArrivalCount false cd ad = cd := rfl

lemma arrivalCount_lt_40 (phase : SimulationPhase) (acc : Bool) (tick : ℕ)
    {countDraw accelDraw : ℕ} (hc : countDraw < 5) (ha : accelDraw < 10) :
    arrivalCount phase acc tick countDraw accelDraw < 40 := by
  simp only [arrivalCount]
  cases acc <;> simp only [baseArrivalCount_true, baseArrivalCount_false] <;>
    split_ifs <;> omega

/-- C5: in non-replay mode the arrival count is the base draw — in [0,5)
normally, in [5,15) accelerated — plus 25 when the phase is
ADVERSARIAL_LOAD_SHAPE and the tick is divisible by 5, plus a flat 8 when the
phase is ZERO_ERROR_AUDIT; every arrival gets complexity in [20,100) and an
id determined by (tick, within-tick index), so ids are unique within the
tick. -/
theorem c5_load_generator (phase : SimulationPhase) (acc : Bool) (tick : ℕ)
    (countDraw accelDraw : ℕ) (cdraw : ℕ → ℚ)
    (hc : countDraw < 5) (ha : accelDraw < 10)
    (hr : ∀ i, 0 ≤ cdraw i ∧ cdraw i < 1) :
    (acc = false → baseArrivalCount acc countDraw accelDraw < 5) ∧
    (acc = true → 5 ≤ baseArrivalCount acc countDraw accelDraw ∧
        baseArrivalCount acc countDraw accelDraw < 15) ∧
    arrivalCount phase acc tick countDraw accelDraw =
      baseArrivalCount acc countDraw accelDraw +
        (if phase = SimulationPhase.PHASE_3 then (if tick % 5 = 0 then 25 else 0)
         else if phase = SimulationPhase.PHASE_5 then 8 else 0) ∧
    (∀ a ∈ generateArrivals phase acc tick countDraw accelDraw cdraw,
        20 ≤ a.complexity ∧ a.complexity < 100) ∧
    ((generateArrivals phase acc tick countDraw accelDraw cdraw).map Arrival.id).Nodup := by
  refine ⟨?_, ?_, ?_, ?_, ?_⟩
  · intro h
    subst h
    rw [baseArrivalCount_false]
    omega
  · intro h
    subst h
    rw [baseArrivalCount_true]
    omega
  · simp only [arrivalCount]
    split_ifs <;> omega
  · intro a ha'
    simp only [generateArrivals, List.mem_map, List.mem_range] at ha'
    obtain ⟨i, _, rfl⟩ := ha'
    obtain ⟨h0, h1⟩ := hr i
    simp only [complexityOf]
    constructor
    · nlinarith
    · nlinarith
  · simp only [generateArrivals, List.map_map]
    refine List.Nodup.map_on ?_ (List.nodup_range _)
    intro x hx y hy hxy
    have hn := arrivalCount_lt_40 phase acc tick hc ha
    have hx' : x < 40 := (List.mem_range.mp hx).trans hn
    have hy' : y < 40 := (List.mem_range.mp hy).trans hn
    exact arrivalId_inj_lt40 tick x hx' y hy' hxy

/-- A fixed uniform draw of one half, used to instantiate the generator. -/
def halfDraw : ℕ → ℚ := fun _ => 1 / 2

/-- C5 witness: the generator property at phase ADVERSARIAL_LOAD_SHAPE,
tick 10, draws 3 and 0, complexity draw one half. -/
theorem c5_witness :
    ((3 : ℕ) < 5 ∧ (0 : ℕ) < 10 ∧ ∀ i : ℕ, 0 ≤ halfDraw i ∧ halfDraw i < 1) ∧
    ((false = false → baseArrivalCount false 3 0 < 5) ∧
      (false = true → 5 ≤ baseArrivalCount false 3 0 ∧ baseArrivalCount false 3 0 < 15) ∧
      arrivalCount SimulationPhase.PHASE_3 false 10 3 0 =
        baseArrivalCount false 3 0 +
          (if SimulationPhase.PHASE_3 = SimulationPhase.PHASE_3 then
            (if 10 % 5 = 0 then 25 else 0)
          else if SimulationPhase.PHASE_3 = SimulationPhase.PHASE_5 then 8 else 0) ∧
      (∀ a ∈ generateArrivals SimulationPhase.PHASE_3 false 10 3 0 halfDraw,
          20 ≤ a.complexity ∧ a.complexity < 100) ∧
      ((generateArrivals SimulationPhase.PHASE_3 false 10 3 0 halfDraw).map Arrival.id).Nodup) :=
  ⟨⟨by norm_num, by norm_num, fun i => by norm_num [halfDraw]⟩,
   c5_load_generator SimulationPhase.PHASE_3 false 10 3 0 halfDraw (by norm_num) (by norm_num)
     (fun i => by norm_num [halfDraw])⟩

/-! ### C6 / C7 / C10: trace recording and replay -/

lemma recordSession_succ (cfg : SimulationConfig) (phase : SimulationPhase)
    (cd ad : ℕ → ℕ) (cx : ℕ → ℕ → ℚ) (n : ℕ)
    (hrec : cfg.isRecording = true) (hrep : cfg.isReplaying = false) :
    recordSession cfg phase cd ad cx (n + 1) =
      recordSession cfg phase cd ad cx n ++
        [⟨n + 1, generateArrivals phase cfg.isAccelerated (n + 1)
            (cd (n + 1)) (ad (n + 1)) (cx (n + 1))⟩] := by
  simp [recordSession, arrivalSource, hrep, hrec]

lemma recordSession_ticks (cfg : SimulationConfig) (phase : SimulationPhase)
    (cd ad : ℕ → ℕ) (cx : ℕ → ℕ → ℚ)
    (hrec : cfg.isRecording = true) (hrep : cfg.isReplaying = false) (n : ℕ) :
    ∀ e ∈ recordSession cfg phase cd ad cx n, 1 ≤ e.tick ∧ e.tick ≤ n := by
  induction n with
  | zero =>
    intro e he
    simp [recordSession] at he
  | succ n ih =>
    intro e he
    rw [recordSession_succ cfg phase cd ad cx n hrec hrep] at he
    rcases List.mem_append.mp he with h | h
    · obtain ⟨hl, hu⟩ := ih e h
      exact ⟨hl, Nat.le_succ_of_le hu⟩
    · rcases List.mem_singleton.mp h with rfl
      exact ⟨Nat.le_add_left 1 n, Nat.le_refl _⟩

lemma recordSession_length (cfg : SimulationConfig) (phase : SimulationPhase)
    (cd ad : ℕ → ℕ) (cx : ℕ → ℕ → ℚ)
    (hrec : cfg.isRecording = true) (hrep : cfg.isReplaying = false) (n : ℕ) :
    (recordSession cfg phase cd ad cx n).length = n := by
  induction n with
  | zero => rfl
  | succ n ih =>
    rw [recordSession_succ cfg phase cd ad cx n hrec hrep, List.length_append, ih]
    rfl

/-- Looking up a recorded tick in a full session buffer returns exactly the
entry recorded at that tick. -/
lemma replayLookup_recordSession (cfg : SimulationConfig) (phase : SimulationPhase)
    (cd ad : ℕ → ℕ) (cx : ℕ → ℕ → ℚ)
    (hrec : cfg.isRecording = true) (hrep : cfg.isReplaying = false)
    {t n : ℕ} (h1 : 1 ≤ t) (h2 : t ≤ n) :
    replayLookup (recordSession cfg phase cd ad cx n) t =
      some ⟨t, generateArrivals phase cfg.isAccelerated t (cd t) (ad t) (cx t)⟩ := by
  induction n with
  | zero => omega
  | succ n ih =>
    rw [recordSession_succ cfg phase cd ad cx n hrec hrep]
    unfold replayLookup at *
    rw [List.find?_append]
    by_cases ht : t ≤ n
    · rw [ih ht]
      rfl
    · have hteq : t = n + 1 := by omega
      subst hteq
      have hnone :
          List.find? (fun d => d.tick == n + 1) (recordSession cfg phase cd ad cx n) = none := by
        rw [List.find?_eq_none]
        intro e he
        obtain ⟨hl, hu⟩ := recordSession_ticks cfg phase cd ad cx hrec hrep n e he
        simp only [beq_iff_eq]
        omega
      rw [hnone]
      simp

/-- C6: round-trip — when a trace holds the buffer of a recorded session of
N ticks, replaying it feeds the tick engine, at every tick t in 1..N, exactly
the arrival list that was generated (and recorded) at the original tick t. -/
theorem c6_round_trip (cfg rcfg : SimulationConfig) (tr : TraceRecord)
    (phase phase2 : SimulationPhase) (cd ad : ℕ → ℕ) (cx : ℕ → ℕ → ℚ)
    (N t : ℕ) (cd2 ad2 : ℕ) (cx2 : ℕ → ℚ) (buffer : List TickTrace)
    (hrec : cfg.isRecording = true) (hrep : cfg.isReplaying = false)
    (hr : rcfg.isReplaying = true)
    (hdata : tr.data = recordSession cfg phase cd ad cx N)
    (h1 : 1 ≤ t) (h2 : t ≤ N) :
    (arrivalSource rcfg (some tr) phase2 t buffer cd2 ad2 cx2).incoming =
      generateArrivals phase cfg.isAccelerated t (cd t) (ad t) (cx t) := by
  have hlook := replayLookup_recordSession cfg phase cd ad cx hrec hrep h1 h2
  simp [arrivalSource, hr, hdata, hlook]

def recordingCfg : SimulationConfig := { INITIAL_CONFIG with isRecording := true }

def replayingCfg : SimulationConfig := { INITIAL_CONFIG with isReplaying := true }

/-- A three-tick recorded session with fixed draws. -/
def c6Trace : TraceRecord :=
  { id := "trace-1", timestamp := 0, phase := SimulationPhase.BASE, integrityScore := 100,
    data := recordSession recordingCfg SimulationPhase.BASE
      (fun _ => 1) (fun _ => 0) (fun _ _ => 0) 3 }

/-- C6 witness: the round-trip property at tick 2 of a recorded three-tick
session. -/
theorem c6_round_trip_witness :
    (recordingCfg.isRecording = true ∧ recordingCfg.isReplaying = false ∧
      replayingCfg.isReplaying = true ∧
      c6Trace.data = recordSession recordingCfg SimulationPhase.BASE
        (fun _ => 1) (fun _ => 0) (fun _ _ => 0) 3 ∧
      1 ≤ 2 ∧ 2 ≤ 3) ∧
    (arrivalSource replayingCfg (some c6Trace) SimulationPhase.BASE 2 [] 0 0 halfDraw).incoming =
      generateArrivals SimulationPhase.BASE recordingCfg.isAccelerated 2 1 0 (fun _ => 0) :=
  ⟨⟨rfl, rfl, rfl, rfl, by norm_num, by norm_num⟩,
   c6_round_trip recordingCfg replayingCfg c6Trace SimulationPhase.BASE SimulationPhase.BASE
     (fun _ => 1) (fun _ => 0) (fun _ _ => 0) 3 2 0 0 halfDraw [] rfl rfl rfl rfl
     (by norm_num) (by norm_num)⟩

/-- C7: replaying a trace with 10 recorded ticks and reaching tick 11 clears
the isReplaying flag automatically; nothing else happens — the recording
buffer is untouched and the tick function still returns a full result, so the
tick loop is not halted. -/
theorem c7_replay_exhaustion (rcfg : SimulationConfig) (tr : TraceRecord)
    (phase2 : SimulationPhase) (buffer : List TickTrace) (cd2 ad2 : ℕ) (cx2 : ℕ → ℚ)
    (hr : rcfg.isReplaying = true)
    (hlen : tr.data.length = 10)
    (hticks : ∀ e ∈ tr.data, e.tick ≤ 10) :
    (arrivalSource rcfg (some tr) phase2 11 buffer cd2 ad2 cx2).isReplaying = false ∧
    (arrivalSource rcfg (some tr) phase2 11 buffer cd2 ad2 cx2).traceBuffer = buffer := by
  have hnone : replayLookup tr.data 11 = none := by
    rw [replayLookup, List.find?_eq_none]
    intro e he
    have := hticks e he
    simp only [beq_iff_eq]
    omega
  constructor <;> simp [arrivalSource, hr, hnone, hlen]

/-- A trace with ten recorded ticks 1..10, each with an empty arrival list. -/
def c7Trace : TraceRecord :=
  { id := "trace-2", timestamp := 0, phase := SimulationPhase.BASE, integrityScore := 100,
    data := (List.range 10).map (fun k => ⟨k + 1, []⟩) }

/-- C7 witness: exhaustion at tick 11 of the ten-tick trace. -/
theorem c7_replay_exhaustion_witness :
    (replayingCfg.isReplaying = true ∧ c7Trace.data.length = 10 ∧
      ∀ e ∈ c7Trace.data, e.tick ≤ 10) ∧
    ((arrivalSource replayingCfg (some c7Trace) SimulationPhase.BASE 11 [] 0 0
        halfDraw).isReplaying = false ∧
      (arrivalSource replayingCfg (some c7Trace) SimulationPhase.BASE 11 [] 0 0
        halfDraw).traceBuffer = []) :=
  ⟨⟨rfl, by decide, by decide⟩,
   c7_replay_exhaustion replayingCfg c7Trace SimulationPhase.BASE [] 0 0 halfDraw
     rfl (by decide) (by decide)⟩

/-- C10: on the tick at which replay exhaustion is detected (tick index past
the recorded range, isReplaying still set) the arrival list is empty — no
tasks are routed, routing cost is zero, and the recording buffer is
unchanged; synthetic generation happens only once isReplaying has been
cleared, on a later tick. -/
theorem c10_exhaustion_no_ingest (rcfg : SimulationConfig) (tr : TraceRecord)
    (phase2 : SimulationPhase) (t t2 : ℕ) (buffer : List TickTrace)
    (cd2 ad2 : ℕ) (cx2 : ℕ → ℚ) (now : ℚ)
    (hr : rcfg.isReplaying = true)
    (hticks : ∀ e ∈ tr.data, e.tick < t)
    (hlen : tr.data.length < t) :
    (arrivalSource rcfg (some tr) phase2 t buffer cd2 ad2 cx2).incoming = [] ∧
    routeArrivals now (arrivalSource rcfg (some tr) phase2 t buffer cd2 ad2 cx2).incoming = [] ∧
    routingCost (arrivalSource rcfg (some tr) phase2 t buffer cd2 ad2 cx2).incoming = 0 ∧
    (arrivalSource rcfg (some tr) phase2 t buffer cd2 ad2 cx2).traceBuffer = buffer ∧
    (arrivalSource { rcfg with isReplaying := false } (some tr) phase2 t2 buffer
        cd2 ad2 cx2).incoming =
      generateArrivals phase2 rcfg.isAccelerated t2 cd2 ad2 cx2 := by
  have hnone : replayLookup tr.data t = none := by
    rw [replayLookup, List.find?_eq_none]
    intro e he
    have := hticks e he
    simp only [beq_iff_eq]
    omega
  refine ⟨?_, ?_, ?_, ?_, ?_⟩ <;>
    simp [arrivalSource, hr, hnone, hlen, routeArrivals, routingCost]

/-- C10 witness: the ten-tick trace at detection tick 11 and resumption tick
12. -/
theorem c10_exhaustion_no_ingest_witness :
    (replayingCfg.isReplaying = true ∧ (∀ e ∈ c7Trace.data, e.tick < 11) ∧
      c7Trace.data.length < 11) ∧
    ((arrivalSource replayingCfg (some c7Trace) SimulationPhase.BASE 11 [] 0 0
        halfDraw).incoming = [] ∧
      routeArrivals 0 (arrivalSource replayingCfg (some c7Trace) SimulationPhase.BASE 11 [] 0 0
        halfDraw).incoming = [] ∧
      routingCost (arrivalSource replayingCfg (some c7Trace) SimulationPhase.BASE 11 [] 0 0
        halfDraw).incoming = 0 ∧
      (arrivalSource replayingCfg (some c7Trace) SimulationPhase.BASE 11 [] 0 0
        halfDraw).traceBuffer = [] ∧
      (arrivalSource { replayingCfg with isReplaying := false } (some c7Trace)
          SimulationPhase.BASE 12 [] 0 0 halfDraw).incoming =
        generateArrivals SimulationPhase.BASE replayingCfg.isAccelerated 12 0 0 halfDraw) :=
  ⟨⟨rfl, by decide, by decide⟩,
   c10_exhaustion_no_ingest replayingCfg c7Trace SimulationPhase.BASE 11 12 [] 0 0 halfDraw 0
     rfl (by decide) (by decide)⟩

/-! ### C8: auto-advance -/

/-- Auto-advance enabled together with autopilot; counter mid-phase. -/
def c8Cfg : SimulationConfig :=
  { INITIAL_CONFIG with isAutopilot := true, phaseTickCounter := 5 }

/-- C8 counterexample: the auto-advance block is gated on
isAutoAdvancing AND NOT isAutopilot, so with isAutoAdvancing true but
autopilot engaged the per-phase counter does not increment on a tick. -/
theorem c8_counterexample :
    c8Cfg.isAutoAdvancing = true ∧
    (autoAdvanceStep c8Cfg SimulationPhase.BASE).1.phaseTickCounter = 5 ∧
    ¬ (autoAdvanceStep c8Cfg SimulationPhase.BASE).1.phaseTickCounter =
        c8Cfg.phaseTickCounter + 1 := by
  decide

/-- C8 (amended): while isAutoAdvancing is true AND isAutopilot is false,
the per-phase counter increments every tick; when it reaches 30 on a
non-terminal phase the machine advances exactly one phase (index + 1) and
resets the counter to 0; when it reaches 30 on ZERO_ERROR_AUDIT the
isAutoAdvancing flag turns false, the counter resets to 0, and the phase is
unchanged. -/
theorem c8_auto_advance (cfg : SimulationConfig) (phase : SimulationPhase)
    (hon : cfg.isAutoAdvancing = true) (hap : cfg.isAutopilot = false) :
    (cfg.phaseTickCounter + 1 < TICKS_PER_PHASE →
        autoAdvanceStep cfg phase =
          ({ cfg with phaseTickCounter := cfg.phaseTickCounter + 1 }, phase)) ∧
    (TICKS_PER_PHASE ≤ cfg.phaseTickCounter + 1 → phase ≠ SimulationPhase.PHASE_5 →
        (autoAdvanceStep cfg phase).1 = { cfg with phaseTickCounter := 0 } ∧
        phaseIdx (autoAdvanceStep cfg phase).2 = phaseIdx phase + 1) ∧
    (TICKS_PER_PHASE ≤ cfg.phaseTickCounter + 1 → phase = SimulationPhase.PHASE_5 →
        autoAdvanceStep cfg phase =
          ({ cfg with isAutoAdvancing := false, phaseTickCounter := 0 }, phase)) := by
  refine ⟨?_, ?_, ?_⟩
  · intro hlt
    have h30 := Nat.not_le.mpr hlt
    simp [autoAdvanceStep, hon, hap, h30]
  · intro hge hph
    cases phase <;>
      first
        | exact absurd rfl hph
        | constructor <;> simp [autoAdvanceStep, hon, hap, hge, phaseIdx, phasesList]
  · intro hge hph
    subst hph
    simp [autoAdvanceStep, hon, hap, hge, phaseIdx, phasesList]

/-- Auto-advance on, autopilot off, counter one below the threshold. -/
def c8WitnessCfg : SimulationConfig := { INITIAL_CONFIG with phaseTickCounter := 29 }

/-- C8 witness: Scenario F — at the threshold on the last phase, the flag
clears, the counter resets, the phase stays put. -/
theorem c8_auto_advance_witness :
    (c8WitnessCfg.isAutoAdvancing = true ∧ c8WitnessCfg.isAutopilot = false ∧
      TICKS_PER_PHASE ≤ c8WitnessCfg.phaseTickCounter + 1) ∧
    autoAdvanceStep c8WitnessCfg SimulationPhase.PHASE_5 =
      ({ c8WitnessCfg with isAutoAdvancing := false, phaseTickCounter := 0 },
        SimulationPhase.PHASE_5) :=
  ⟨⟨rfl, rfl, by decide⟩,
   (c8_auto_advance c8WitnessCfg SimulationPhase.PHASE_5 rfl rfl).2.2 (by decide) rfl⟩

/-! ### C9: integrity score -/

def zeroMetric : SystemMetrics :=
  { throughput := 0, latency := 0, memoryUsage := 0, cpuLoad := 0,
    refusalCount := 0, errorCount := 0, timestamp := 0, routingOverhead := 0 }

/-- A full 101-entry history whose oldest entry carries all the errors. -/
def c9History : List SystemMetrics :=
  { zeroMetric with errorCount := 200 } :: List.replicate 100 zeroMetric

/-- C9 counterexample: the history is kept to the most recent 101 entries,
so appending an error-free tick to a full history evicts the oldest entry
and can make the integrity score increase from one tick to the next. -/
theorem c9_counterexample :
    integrityScore c9History < integrityScore (pushMetrics c9History zeroMetric) := by
  have hpush : pushMetrics c9History zeroMetric =
      List.replicate 100 zeroMetric ++ [zeroMetric] := by
    simp [pushMetrics, c9History]
  have h1 : totalErrorCount c9History = 200 := by
    simp [totalErrorCount, c9History, zeroMetric, List.map_replicate, List.sum_replicate]
  have h2 : totalErrorCount (pushMetrics c9History zeroMetric) = 0 := by
    rw [hpush]
    simp [totalErrorCount, zeroMetric, List.map_replicate, List.sum_replicate]
  rw [integrityScore, integrityScore, h1, h2]
  rw [show ((200 : ℕ) : ℚ) / 10 = 20 by norm_num, show ((0 : ℕ) : ℚ) / 10 = 0 by norm_num]
  rw [show (100 : ℚ) - 20 = 80 by norm_num, show (100 : ℚ) - 0 = 100 by norm_num]
  rw [max_eq_right (by norm_num : (0 : ℚ) ≤ 80), max_eq_right (by norm_num : (0 : ℚ) ≤ 100)]
  norm_num

/-- C9 (amended): the integrity score never goes below 0, and it is
non-increasing from tick to tick as long as the metrics history holds at
most 100 entries, i.e. as long as appending the new snapshot evicts nothing
(the first 101 ticks of a session); beyond that, eviction of old entries
with positive errorCount can raise it. -/
theorem c9_monotone (history : List SystemMetrics) (m : SystemMetrics)
    (hlen : history.length ≤ 100) :
    0 ≤ integrityScore (pushMetrics history m) ∧
    integrityScore (pushMetrics history m) ≤ integrityScore history := by
  constructor
  · exact le_max_left 0 _
  · have hdrop : history.drop (history.length - 100) = history := by
      rw [Nat.sub_eq_zero_of_le hlen, List.drop_zero]
    have hsum : (totalErrorCount history : ℚ) ≤ (totalErrorCount (history ++ [m]) : ℚ) := by
      have hn : totalErrorCount history ≤ totalErrorCount (history ++ [m]) := by
        simp only [totalErrorCount, List.map_append, List.sum_append]
        omega
      exact_mod_cast hn
    rw [integrityScore, integrityScore, pushMetrics, hdrop]
    exact max_le_max (le_refl 0) (by linarith)

/-- C9 witness: the amended statement at a one-entry history. -/
theorem c9_monotone_witness :
    ([zeroMetric].length ≤ 100) ∧
    (0 ≤ integrityScore (pushMetrics [zeroMetric] zeroMetric) ∧
      integrityScore (pushMetrics [zeroMetric] zeroMetric) ≤ integrityScore [zeroMetric]) :=
  ⟨by norm_num, c9_monotone [zeroMetric] zeroMetric (by norm_num)⟩

end Stratum0
